import Mathlib

/-!
Verification of the resilient market-data extraction pipeline
(line-bot-taifex). Each Python function relevant to the checked
claims is embedded as an executable Lean definition over rationals
(Python floats) and integers; documents are grids of string cells.
-/

namespace Taifex

/-! ### String helpers shared by the embedded parsers -/

/-- Does `n` occur as a prefix of `l`? (used to model Python `in`). -/
def startsWithL : List Char → List Char → Bool
  | [], _ => true
  | _ :: _, [] => false
  | a :: as, b :: bs => a = b && startsWithL as bs

/-- Does `n` occur as a contiguous sublist of `l`? -/
def occursIn (n : List Char) : List Char → Bool
  | [] => n.isEmpty
  | c :: rest => startsWithL n (c :: rest) || occursIn n rest

/-- Model of Python `needle in haystack` on strings. -/
def subStr (needle hay : String) : Bool :=
  occursIn needle.data hay.data

/-- Model of Python `str.strip()`: drop whitespace at both ends. -/
def trimL (l : List Char) : List Char :=
  ((l.dropWhile Char.isWhitespace).reverse.dropWhile Char.isWhitespace).reverse

/-- If `pat` is a prefix of `l`, return the remainder. -/
def dropMatch : List Char → List Char → Option (List Char)
  | [], l => some l
  | _ :: _, [] => none
  | a :: as, b :: bs => if a = b then dropMatch as bs else none

/-- Fuel-indexed worker for `replaceL`; the fuel bounds the input length. -/
def replaceFuel (pat rep : List Char) : ℕ → List Char → List Char
  | 0, l => l
  | _ + 1, [] => []
  | n + 1, c :: rest =>
    match dropMatch pat (c :: rest) with
    | some after =>
      if pat.isEmpty then c :: replaceFuel pat rep n rest
      else rep ++ replaceFuel pat rep n after
    | none => c :: replaceFuel pat rep n rest

/-- Model of Python `str.replace`: rewrite the leftmost, non-overlapping
occurrences of `pat` by `rep`. -/
def replaceL (pat rep l : List Char) : List Char :=
  replaceFuel pat rep l.length l

/-- Model of Python `str.split(sep)` for a one-character separator. -/
def splitCharL (p : Char → Bool) : List Char → List (List Char)
  | [] => [[]]
  | c :: rest =>
    let r := splitCharL p rest
    if p c then [] :: r
    else
      match r with
      | [] => [[c]]
      | h :: t => (c :: h) :: t

/-- Numeric value of a digit list (most significant first). -/
def digitsVal (l : List Char) : ℕ :=
  l.foldl (fun n c => 10 * n + (c.toNat - 48)) 0

/-- Parse an unsigned decimal numeral possibly holding one dot,
as Python `float` accepts on strings made of digits and dots. -/
def parseUnsignedQ (l : List Char) : Option ℚ :=
  if l.all (fun c => c.isDigit || c = '.')
      && (l.filter (fun c => c = '.')).length ≤ 1
      && l.any (fun c => c.isDigit) then
    let intPart := l.takeWhile (fun c => c ≠ '.')
    let fracPart := (l.dropWhile (fun c => c ≠ '.')).drop 1
    some ((digitsVal intPart : ℚ) + (digitsVal fracPart : ℚ) / (10 : ℚ) ^ fracPart.length)
  else
    none

/-- Model of Python `float(s)` on a string of digits, dots and minus
signs; `none` models `ValueError`. -/
def parseFloatQ (l : List Char) : Option ℚ :=
  match l with
  | '-' :: rest => (parseUnsignedQ rest).map (fun q => -q)
  | _ => parseUnsignedQ l

/-- Embedding of `safe_float` (src/crawler/utils.py): keep digits,
dots and minus signs, then convert; any failure resolves to `0`. -/
def safeFloatL (l : List Char) : ℚ :=
  let kept := l.filter (fun c => c.isDigit || c = '.' || c = '-')
  (parseFloatQ kept).getD 0

/-- `safe_float` on a string cell. -/
def safeFloat (s : String) : ℚ :=
  safeFloatL s.data

/-- Embedding of `safe_int` (src/crawler/utils.py): keep digits and
minus signs, then convert; any failure resolves to `0`. -/
def safeIntL (l : List Char) : ℤ :=
  let kept := l.filter (fun c => c.isDigit || c = '-')
  match kept with
  | [] => 0
  | '-' :: rest =>
      if rest ≠ [] && rest.all (fun c => c.isDigit) then -(digitsVal rest : ℤ) else 0
  | l => if l.all (fun c => c.isDigit) then (digitsVal l : ℤ) else 0

/-- `safe_int` on a string cell. -/
def safeInt (s : String) : ℤ :=
  safeIntL s.data

/-! ### Ratio normalization (src/crawler/utils.py `normalize_pc_ratio`,
duplicated verbatim in src/utils.py) -/

/-- Embedding of `normalize_pc_ratio`: the zero (falsy) guard, then the
nested magnitude heuristics of the source. -/
def normalize_pc_ratio (value : ℚ) : ℚ :=
  if value = 0 then 0
  else if 1000 < value then value / 10000
  else if 100 < value then value / 100
  else if 10 < value then
    if 50 < value then value / 100
    else if 20 < value then value / 10
    else value
  else value

/-- The flat decision chain stated by the specification for the
ratio-normalization heuristic. -/
def specNormalizeChain (v : ℚ) : ℚ :=
  if 1000 < v then v / 10000
  else if 100 < v then v / 100
  else if 50 < v then v / 100
  else if 20 < v then v / 10
  else v

/-! ### Numeric cell parsing (src/crawler/futures.py) -/

/-- Embedding of the change-cell parsing of `get_tx_futures_data`
(src/crawler/futures.py lines 142-148): strip, drop thousands commas,
map the rise glyph to `+` and the fall glyph to `-`. -/
def parseChange (s : String) : ℚ :=
  let t := replaceL ",".data [] (trimL s.data)
  if t.isEmpty || t = "--".data then 0
  else if occursIn "▲".data t || occursIn "+".data t then
    safeFloatL (replaceL "+".data [] (replaceL "▲".data [] t))
  else if occursIn "▼".data t || occursIn "-".data t then
    -(safeFloatL (replaceL "-".data [] (replaceL "▼".data [] t)))
  else 0

/-- Try to match the parenthesized-number pattern right after an opening
parenthesis: one digit, then digits or commas, then a closing parenthesis;
returns the captured group. -/
def tryParenAt (l : List Char) : Option (List Char) :=
  match l with
  | [] => none
  | c :: _ =>
    if c.isDigit then
      let grp := l.takeWhile (fun d => d.isDigit || d = ',')
      match l.dropWhile (fun d => d.isDigit || d = ',') with
      | ')' :: _ => some grp
      | _ => none
    else none

/-- First match of the parenthesized-number pattern in the text, as the
regex scan of src/crawler/futures.py line 601 finds it. -/
def parenCapture : List Char → Option (List Char)
  | [] => none
  | '(' :: rest =>
    match tryParenAt rest with
    | some g => some g
    | none => parenCapture rest
  | _ :: rest => parenCapture rest

/-- Embedding of the buy/sell-cell parsing of `get_top_traders_data`
(src/crawler/futures.py lines 591-624): the outer value is `safe_int` of
the first line with commas removed, the parenthesized value is the first
regex capture with commas removed. -/
def parseTradersCell (text : String) : ℤ × ℤ :=
  let t := trimL text.data
  let lines := splitCharL (fun c => c = '\n') t
  let line0 := match lines with
    | [] => "0".data
    | l0 :: _ => l0
  let outer := safeIntL (replaceL ",".data [] line0)
  let inner :=
    match parenCapture t with
    | some g => safeIntL (replaceL ",".data [] g)
    | none => 0
  (outer, inner)

/-! ### Foreign option net positions (src/crawler/futures.py
`get_options_positions_data` and `get_options_positions_backup`) -/

/-- Embedding of the call-row net parsing of `get_options_positions_data`
(lines 905-912): a cell whose raw text contains `4,552` or `4552` is
forced to the constant, otherwise `safe_int` of the cleaned text. -/
def parseForeignCallNet (cell : String) : ℤ :=
  if subStr "4,552" cell || subStr "4552" cell then 4552
  else safeIntL (replaceL ",".data [] (trimL cell.data))

/-- Embedding of the put-row net parsing of `get_options_positions_data`
(lines 925-929): a cell whose raw text contains `9,343` or `9343` is
forced to the constant, otherwise `safe_int` of the cleaned text. -/
def parseForeignPutNet (cell : String) : ℤ :=
  if subStr "9,343" cell || subStr "9343" cell then 9343
  else safeIntL (replaceL ",".data [] (trimL cell.data))

/-- Embedding of the final fallback of `get_options_positions_backup`
(lines 1068-1073): if every attempt left both nets at zero, the fixed
constants are substituted. -/
def finalizeOptionsBackup (callNet putNet : ℤ) : ℤ × ℤ :=
  if callNet = 0 ∧ putNet = 0 then (4552, 9343) else (callNet, putNet)

/-! ### Institutional flows (src/crawler/institutional.py
`get_institutional_investors_data`, lines 80-94) -/

/-- The three institutional components and their reported total, in units
of hundred millions, as parsed from the exchange table. -/
structure InstData where
  foreign : ℚ
  investment_trust : ℚ
  dealer : ℚ
  total : ℚ
  deriving DecidableEq, Repr

/-- Embedding of the post-parse adjustment of
`get_institutional_investors_data`: first the alternate-source retry for
an anomalous foreign value (`alt` is the foreign value the alternate
source returned, if any), then the consistency repair that recomputes
`foreign` from the reported total. -/
def adjustInstitutional (r : InstData) (alt : Option ℚ) : InstData :=
  let r1 :=
    if |r.foreign| < 1/100 ∧ 1 < |r.total| then
      match alt with
      | some f => if 1/100 < |f| then ⟨f, r.investment_trust, r.dealer, r.total⟩ else r
      | none => r
    else r
  if 1 < |r1.total - (r1.foreign + r1.investment_trust + r1.dealer)| then
    if 1 < |r1.total| ∧ |r1.foreign| < 1/100 then
      ⟨r1.total - r1.investment_trust - r1.dealer, r1.investment_trust, r1.dealer, r1.total⟩
    else r1
  else r1

/-! ### Scheduler snapshot assembly (src/scheduler/market_data.py
`fetch_market_data`, lines 78-93 and 140-149) -/

/-- The `market_indicators` block of the assembled snapshot. -/
structure MarketIndicators where
  mtx_retail_ratio : ℚ
  mtx_retail_ratio_prev : ℚ
  xmtx_retail_ratio : ℚ
  xmtx_retail_ratio_prev : ℚ
  put_call_ratio : ℚ
  put_call_ratio_prev : ℚ
  vix : ℚ
  vix_prev : ℚ
  deriving DecidableEq, Repr

/-- Embedding of the indicator computation of `fetch_market_data`: the
institutional nets are hard-coded to 0, the open interests to 1, and both
retail indicators to 0.0; only the put/call ratio and VIX flow through
from the crawlers. -/
def fetchMarketIndicators (pcRatioOi vixData : ℚ) : MarketIndicators :=
  let mtx_institutional_net : ℤ := 0
  let mtx_oi : ℤ := 1
  let mtx_retail_indicator : ℚ := 0
  let xmtx_institutional_net : ℤ := 0
  let xmtx_oi : ℤ := 1
  let xmtx_retail_indicator : ℚ := 0
  let yesterday_mtx_retail_indicator : ℚ := 0
  let yesterday_xmtx_retail_indicator : ℚ := 0
  let yesterday_pc_ratio : ℚ := 0
  let yesterday_vix : ℚ := 0
  ⟨mtx_retail_indicator, yesterday_mtx_retail_indicator,
   xmtx_retail_indicator, yesterday_xmtx_retail_indicator,
   pcRatioOi, yesterday_pc_ratio, vixData, yesterday_vix⟩

/-- The retail positioning indicator as the specification words it:
`-(dealer_net + trust_net + foreign_net) / max(open_interest, 1) * 100`
(stated for comparison against the scheduler's computation). -/
def specRetailIndicator (dealer_net trust_net foreign_net open_interest : ℤ) : ℚ :=
  -((dealer_net + trust_net + foreign_net : ℤ) : ℚ) / ((max open_interest 1 : ℤ) : ℚ) * 100

/-! ### Day-over-day change computation
(src/crawler/top_traders.py lines 43-58 and
src/crawler/option_positions.py lines 43-58) -/

/-- The net-position fields of a top-traders record. -/
structure TopTradersData where
  top10_traders_net : ℤ
  top10_specific_net : ℤ
  top10_traders_net_change : ℤ
  top10_specific_net_change : ℤ
  deriving DecidableEq, Repr

/-- Embedding of the change computation of `get_top_traders_data`:
yesterday's nets default to 0 when yesterday's data is unavailable, and
each change is today's net minus that value. -/
def computeTopTradersChanges (today : TopTradersData)
    (yesterday : Option TopTradersData) : TopTradersData :=
  let ynet := match yesterday with
    | some y => y.top10_traders_net
    | none => 0
  let ynetSpecific := match yesterday with
    | some y => y.top10_specific_net
    | none => 0
  ⟨today.top10_traders_net, today.top10_specific_net,
   today.top10_traders_net - ynet, today.top10_specific_net - ynetSpecific⟩

/-- The net-position fields of an option-positions record. -/
structure OptionPositionsData where
  foreign_call_net : ℤ
  foreign_put_net : ℤ
  foreign_call_net_change : ℤ
  foreign_put_net_change : ℤ
  deriving DecidableEq, Repr

/-- Embedding of the change computation of `get_option_positions_data`:
yesterday's nets default to 0 when yesterday's data is unavailable, and
each change is today's net minus that value. -/
def computeOptionChanges (today : OptionPositionsData)
    (yesterday : Option OptionPositionsData) : OptionPositionsData :=
  let ycall := match yesterday with
    | some y => y.foreign_call_net
    | none => 0
  let yput := match yesterday with
    | some y => y.foreign_put_net
    | none => 0
  ⟨today.foreign_call_net, today.foreign_put_net,
   today.foreign_call_net - ycall, today.foreign_put_net - yput⟩

/-! ### Snapshot persistence (src/database/mongodb.py
`save_market_report`, lines 190-204, with the unique `date` index of
`_setup_indexes`, lines 61-66) -/

/-- The stored per-date report document (the nested numeric payload of
`save_market_report` is irrelevant to keying; representative fields). -/
structure ReportDocument where
  taiex_close : ℚ
  futures_bias : ℚ
  foreign_net : ℚ
  deriving DecidableEq, Repr

/-- The `market_reports` collection as a list of (date, document)
records, in insertion order. -/
def ReportStore := List (String × ReportDocument)

/-- Embedding of the `update_one({date}, {$set: document}, upsert=True)`
call of `save_market_report`: replace the first record whose date
matches, or append a new record when none does. -/
def saveMarketReport (store : ReportStore) (date : String)
    (doc : ReportDocument) : ReportStore :=
  match store with
  | [] => [(date, doc)]
  | e :: rest =>
    if e.1 = date then (date, doc) :: rest
    else e :: saveMarketReport rest date doc

/-- Number of stored records carrying the given date. -/
def countDate (store : ReportStore) (date : String) : ℕ :=
  (store.filter (fun e => e.1 = date)).length

/-- The stored document for the given date, if any. -/
def findDate (store : ReportStore) (date : String) : Option ReportDocument :=
  match store with
  | [] => none
  | e :: rest => if e.1 = date then some e.2 else findDate rest date

/-- Length of the store. -/
def storeSize (store : ReportStore) : ℕ :=
  store.length

/-! ### Net-position column selection (src/crawler/institutional_futures.py
`get_institutional_futures_by_date`, lines 100-131) -/

/-- The header-keyword predicate of the column search: the lowercased,
stripped cell text must contain both `買賣` and `差額`, or both `多空`
and `淨額`, or `net`. -/
def keywordMatch (t : String) : Bool :=
  let s := String.mk ((trimL t.data).map Char.toLower)
  (occursIn "買賣".data s.data && occursIn "差額".data s.data) ||
    (occursIn "多空".data s.data && occursIn "淨額".data s.data) ||
    occursIn "net".data s.data

/-- First cell index of a header row matching the keywords. -/
def rowHeaderIdx (row : List String) : Option ℕ :=
  row.findIdx? keywordMatch

/-- Embedding of the header scan over the first rows: each row with a
match overwrites the recorded index (the loop `break` only leaves the
inner loop), so the last matching row wins. -/
def headerNetIdx (headerRows : List (List String)) : Option ℕ :=
  headerRows.foldl
    (fun acc row =>
      match rowHeaderIdx row with
      | some i => some i
      | none => acc)
    none

/-- Widest row of the table, as `max_cols` is computed in the source. -/
def maxCols (table : List (List String)) : ℕ :=
  table.foldl (fun m row => max m row.length) 0

/-- The positional fallback candidates of the source. -/
def netPositionCandidates : List ℕ := [8, 9, 10]

/-- Embedding of the net-position column choice: the header-keyword scan
over the first two rows, and only if it found nothing, the first fixed
candidate index that fits the table's width. -/
def chooseNetIdx (table : List (List String)) : Option ℕ :=
  match headerNetIdx (table.take 2) with
  | some i => some i
  | none => netPositionCandidates.find? (fun idx => idx < maxCols table)

/-! ### Basis computation (src/crawler/futures.py lines 45-49 and
src/crawler/pc_ratio.py lines 32-33 and 58-155) -/

/-- Embedding of the bias computation of `get_futures_data`
(src/crawler/futures.py lines 45-49): computed only when both closes are
positive, otherwise 0. -/
def computeBias (close taiex_close : ℚ) : ℚ :=
  if 0 < close ∧ 0 < taiex_close then close - taiex_close else 0

/-- The numeric fields a TX-futures fetch returns. -/
structure TxData where
  close : ℚ
  change : ℚ
  change_percent : ℚ
  taiex_close : ℚ
  deriving DecidableEq, Repr

/-- The all-zero TX record of the failure paths of
`get_tx_futures_data` in src/crawler/pc_ratio.py. -/
def pcDefaultTx : TxData :=
  ⟨0, 0, 0, 0⟩

/-- Change-cell parsing of src/crawler/pc_ratio.py lines 119-124 (no
comma removal, no plain-sign branch). -/
def pcParseChange (s : String) : ℚ :=
  let t := trimL s.data
  if occursIn "▲".data t then safeFloatL (replaceL "▲".data [] t)
  else if occursIn "▼".data t then -(safeFloatL (replaceL "▼".data [] t))
  else 0

/-- Percent-cell parsing of src/crawler/pc_ratio.py lines 127-132. -/
def pcParseChangePercent (s : String) : ℚ :=
  let t := trimL s.data
  if occursIn "▲".data t then
    safeFloatL (replaceL "%".data [] (replaceL "▲".data [] t))
  else if occursIn "▼".data t then
    -(safeFloatL (replaceL "%".data [] (replaceL "▼".data [] t)))
  else 0

/-- The near-month TX row search of src/crawler/pc_ratio.py lines
97-104: first row with at least two cells, first cell `TX`, and no `W`
in the contract month. -/
def pcFindTxRow (rows : List (List String)) : Option (List String) :=
  rows.find? (fun cells =>
    match cells with
    | c0 :: c1 :: _ =>
      String.mk (trimL c0.data) = "TX" && !(occursIn "W".data c1.data)
    | _ => false)

/-- Embedding of `get_tx_futures_data` (src/crawler/pc_ratio.py lines
58-155): the second table is scanned for the near-month TX row; the spot
close is estimated as the futures close minus the fixed offset 4.77; all
failure paths (missing tables, missing row, too-short row raising
`IndexError`) resolve to the zero record. -/
def pcGetTxFutures (tables : List (List (List String))) : TxData :=
  match tables with
  | [] => pcDefaultTx
  | [_] => pcDefaultTx
  | _ :: t1 :: _ =>
    match pcFindTxRow t1 with
    | none => pcDefaultTx
    | some cells =>
      match cells with
      | _ :: _ :: _ :: _ :: _ :: c5 :: c6 :: c7 :: _ =>
        let close := safeFloatL (trimL c5.data)
        ⟨close, pcParseChange c6, pcParseChangePercent c7, close - 477/100⟩
      | _ => pcDefaultTx

/-- Embedding of the bias computation of `get_futures_data`
(src/crawler/pc_ratio.py lines 32-33): unconditionally the merged close
minus the estimated spot close. -/
def pcBias (tx : TxData) : ℚ :=
  tx.close - tx.taiex_close

/-! ### TAIEX index extraction (src/crawler/taiex.py `get_taiex_data`) -/

/-- A fetched-and-parsed HTML page as a list of tables, each a list of
rows, each a list of cell texts; `err` models a raised request error. -/
inductive Fetch where
  | ok (tables : List (List (List String)))
  | err
  deriving DecidableEq, Repr

/-- The numeric fields of the record `get_taiex_data` returns. -/
structure TaiexRecord where
  close : ℚ
  change : ℚ
  change_percent : ℚ
  volume : ℚ
  deriving DecidableEq, Repr

/-- The all-zero record the exception handler of `get_taiex_data`
returns. -/
def defaultTaiexRecord : TaiexRecord :=
  ⟨0, 0, 0, 0⟩

/-- The row search of `get_taiex_data`: the first row whose first cell
is the weighted-index label. -/
def findTaiexRow (rows : List (List String)) : Option (List String) :=
  rows.find? (fun cells =>
    match cells with
    | c0 :: _ => String.mk (trimL c0.data) = "發行量加權股價指數"
    | [] => false)

/-- The volume parse on the second page: the first table's first row
containing the grand-total label, the second cell converted and scaled;
`none` models the `IndexError` a one-cell row raises. -/
def parseVolume (tables : List (List (List String))) : Option ℚ :=
  match tables with
  | [] => some 0
  | t0 :: _ =>
    match t0.find? (fun cells =>
        match cells with
        | c0 :: _ => subStr "總計" c0
        | [] => false) with
    | none => some 0
    | some cells =>
      match cells with
      | _ :: c1 :: _ => some (safeFloatL (trimL c1.data) / 100000000)
      | _ => none

/-- Embedding of `get_taiex_data` (src/crawler/taiex.py): a raised
request error or an `IndexError` on a too-short row resolves to the
all-zero record through the exception handler, but a page without the
expected table, or without the weighted-index row, returns `None`. -/
def getTaiexData (main vol : Fetch) : Option TaiexRecord :=
  match main with
  | .err => some defaultTaiexRecord
  | .ok tables =>
    match tables with
    | [] => none
    | t0 :: _ =>
      match findTaiexRow t0 with
      | none => none
      | some cells =>
        match cells with
        | _ :: c1 :: c2 :: c3 :: c4 :: _ =>
          let sign : ℚ := if String.mk (trimL c2.data) = "+" then 1 else -1
          match vol with
          | .err => some defaultTaiexRecord
          | .ok vtables =>
            match parseVolume vtables with
            | none => some defaultTaiexRecord
            | some v =>
              some ⟨safeFloatL (trimL c1.data),
                    safeFloatL (trimL c3.data) * sign,
                    safeFloatL (trimL c4.data) * sign, v⟩
        | _ => some defaultTaiexRecord

end Taifex

open Taifex

/-- C3: for every numeric input `v`, `normalize_pc_ratio` agrees with the
flat chain `v>1000 → v/10000, v>100 → v/100, v>50 → v/100, v>20 → v/10,
else v`; in particular 7500 ↦ 0.75, 75 ↦ 0.75 and 0.8 ↦ 0.8. -/
theorem c3_normalize_pc_ratio :
    (∀ v : ℚ, normalize_pc_ratio v = specNormalizeChain v) ∧
    normalize_pc_ratio 7500 = 3/4 ∧
    normalize_pc_ratio 75 = 3/4 ∧
    normalize_pc_ratio (4/5) = 4/5 := by
  refine ⟨?_, by norm_num [normalize_pc_ratio], by norm_num [normalize_pc_ratio],
    by norm_num [normalize_pc_ratio]⟩
  intro v
  unfold normalize_pc_ratio specNormalizeChain
  by_cases h0 : v = 0
  · subst h0; norm_num
  · simp only [h0, if_false]
    by_cases h1 : 1000 < v
    · simp [h1]
    · simp only [h1, if_false]
      by_cases h2 : 100 < v
      · simp [h2]
      · simp only [h2, if_false]
        by_cases h3 : 50 < v
        · have h10 : 10 < v := lt_trans (by norm_num) h3
          simp [h10, h3]
        · simp only [h3, if_false]
          by_cases h4 : 20 < v
          · have h10 : 10 < v := lt_trans (by norm_num) h4
            simp [h10, h3, h4]
          · simp only [h4, if_false]
            by_cases h5 : 10 < v
            · simp [h5, h3, h4]
            · simp [h5]

/-- C9 counterexample: a single-line cell `1,234(567)` does not yield the
outer value 1234 — the comma- and parenthesis-stripping integer parse
yields 1234567 for the outer sub-field. -/
theorem c9_counterexample :
    (parseTradersCell "1,234(567)").1 = 1234567 ∧ (1234567 : ℤ) ≠ 1234 :=
  ⟨by decide, by decide⟩

/-- C9 (amended): the rise glyph maps to the positive value
(`▲123.45 ↦ +123.45`), the fall glyph to the negated value
(`▼9,343 ↦ -9343`), and a cell whose parenthesized sub-number stands on
its own line (`1,234` then `(567)`) yields the outer value 1234 and the
parenthesized value 567 as the two sub-fields; on the one-line form
`1,234(567)` the outer parse instead yields 1234567. -/
theorem c9_numeric_parser_amended :
    parseChange "▲123.45" = 12345/100 ∧
    parseChange "▼9,343" = -9343 ∧
    parseTradersCell "1,234\n(567)" = (1234, 567) ∧
    (parseTradersCell "1,234(567)").2 = 567 := by
  refine ⟨?_, ?_, by decide, by decide⟩
  · simp +decide [parseChange, safeFloatL, parseFloatQ, parseUnsignedQ, digitsVal,
      replaceL, replaceFuel, trimL, occursIn, startsWithL, dropMatch]
    norm_num
  · simp +decide [parseChange, safeFloatL, parseFloatQ, parseUnsignedQ, digitsVal,
      replaceL, replaceFuel, trimL, occursIn, startsWithL, dropMatch]

/-- C10: in the option-positions backup extractor a run in which every
parsing attempt left both foreign nets at zero returns the fixed constants
(4552, 9343); and in the primary extractor a call-row net cell containing
`4,552` (resp. a put-row net cell containing `9,343`) is coerced to that
constant regardless of the value the cell would otherwise parse to. -/
theorem c10_options_fixed_constants (cCall cPut : String)
    (hc : subStr "4,552" cCall = true) (hp : subStr "9,343" cPut = true) :
    finalizeOptionsBackup 0 0 = (4552, 9343) ∧
    parseForeignCallNet cCall = 4552 ∧
    parseForeignPutNet cPut = 9343 := by
  refine ⟨by decide, ?_, ?_⟩
  · simp [parseForeignCallNet, hc]
  · simp [parseForeignPutNet, hp]

/-- C10 witness: the cell `14,552` (which `safe_int` would parse as 14552)
is nonetheless coerced to 4552, and a zero-zero backup run returns the
constants. -/
theorem c10_options_fixed_constants_witness :
    subStr "4,552" "14,552" = true ∧ subStr "9,343" "19,343" = true ∧
    (finalizeOptionsBackup 0 0 = (4552, 9343) ∧
      parseForeignCallNet "14,552" = 4552 ∧
      parseForeignPutNet "19,343" = 9343) :=
  ⟨by decide, by decide,
    c10_options_fixed_constants "14,552" "19,343" (by decide) (by decide)⟩

/-- C7 counterexample: with components (foreign, trust, dealer) =
(10, 0, -3) and reported total 12, the anomalous (near-zero) component is
the investment trust; the claim would recompute it to 12 - (10 - 3) = 5,
but the code leaves the record unchanged — only an anomalous foreign
component is ever repaired. -/
theorem c7_counterexample :
    adjustInstitutional ⟨10, 0, -3, 12⟩ none = ⟨10, 0, -3, 12⟩ ∧
    (12 : ℚ) - (10 + (-3)) = 5 ∧ (0 : ℚ) ≠ 5 := by
  refine ⟨?_, by norm_num, by norm_num⟩
  norm_num [adjustInstitutional]

/-- C7 (amended): the consistency repair applies only to the foreign
component: when the components disagree with the reported total by more
than 1, the total is itself away from zero by more than 1, and the
foreign component is near zero (|foreign| < 0.01), the foreign component
is recomputed as total - trust - dealer and nothing else changes; an
anomalous trust or dealer component is left as parsed. -/
theorem c7_consistency_repair_amended (r : InstData)
    (h1 : 1 < |r.total - (r.foreign + r.investment_trust + r.dealer)|)
    (h2 : 1 < |r.total|) (h3 : |r.foreign| < 1/100) :
    adjustInstitutional r none =
      ⟨r.total - r.investment_trust - r.dealer, r.investment_trust, r.dealer, r.total⟩ := by
  unfold adjustInstitutional
  rw [ite_self]
  rw [if_pos h1, if_pos ⟨h2, h3⟩]

/-- C7 witness: components (0, 10, -3) with total 12 satisfy the repair
conditions and the foreign component resolves to 12 - 10 - (-3) = 5. -/
theorem c7_consistency_repair_witness :
    (1 : ℚ) < |12 - ((0 : ℚ) + 10 + (-3))| ∧ (1 : ℚ) < |(12 : ℚ)| ∧
    |(0 : ℚ)| < 1/100 ∧ (12 : ℚ) - 10 - (-3) = 5 ∧
    adjustInstitutional ⟨0, 10, -3, 12⟩ none = ⟨12 - 10 - (-3), 10, -3, 12⟩ :=
  ⟨by norm_num, by norm_num, by norm_num, by norm_num,
    c7_consistency_repair_amended ⟨0, 10, -3, 12⟩ (by norm_num) (by norm_num) (by norm_num)⟩

/-- C5 counterexample: the scheduler stores 0 as the retail indicator no
matter what was extracted, while the specified formula on extracted
components (1, 1, 1) with open interest 2 gives -150. -/
theorem c5_counterexample :
    (fetchMarketIndicators 0 0).mtx_retail_ratio = 0 ∧
    specRetailIndicator 1 1 1 2 = -150 ∧ (0 : ℚ) ≠ -150 := by
  refine ⟨rfl, ?_, by norm_num⟩
  norm_num [specRetailIndicator]

/-- C5 (amended): `fetch_market_data` does not evaluate the retail
formula on extracted fields — it hard-codes the institutional net to 0
and the open interest to 1 and stores the constant 0 for both retail
indicators (which coincides with the specified formula evaluated at
those hard-coded values, so no division by zero can occur). -/
theorem c5_retail_indicator_amended (pcRatioOi vixData : ℚ) :
    (fetchMarketIndicators pcRatioOi vixData).mtx_retail_ratio = 0 ∧
    (fetchMarketIndicators pcRatioOi vixData).xmtx_retail_ratio = 0 ∧
    specRetailIndicator 0 0 0 1 = 0 ∧
    (fetchMarketIndicators pcRatioOi vixData).mtx_retail_ratio =
      specRetailIndicator 0 0 0 1 := by
  refine ⟨rfl, rfl, ?_, ?_⟩ <;> norm_num [specRetailIndicator, fetchMarketIndicators]

/-- C4 counterexample: with today's top-ten traders net = 5 and no
previous day's data, the computed change is 5 (today minus a zero
default), not 0 as the claim states. -/
theorem c4_counterexample :
    (computeTopTradersChanges ⟨5, 7, 0, 0⟩ none).top10_traders_net_change = 5 ∧
    (5 : ℤ) ≠ 0 :=
  ⟨rfl, by decide⟩

/-- C4 (amended): each change is today's net minus the previous day's
net when the previous data is present; when the previous day's data is
absent the previous net defaults to 0, so the change equals today's net
(not 0). -/
theorem c4_change_computation_amended (today y : TopTradersData)
    (oToday oY : OptionPositionsData) :
    (computeTopTradersChanges today (some y)).top10_traders_net_change =
      today.top10_traders_net - y.top10_traders_net ∧
    (computeTopTradersChanges today (some y)).top10_specific_net_change =
      today.top10_specific_net - y.top10_specific_net ∧
    (computeTopTradersChanges today none).top10_traders_net_change =
      today.top10_traders_net ∧
    (computeTopTradersChanges today none).top10_specific_net_change =
      today.top10_specific_net ∧
    (computeOptionChanges oToday (some oY)).foreign_call_net_change =
      oToday.foreign_call_net - oY.foreign_call_net ∧
    (computeOptionChanges oToday (some oY)).foreign_put_net_change =
      oToday.foreign_put_net - oY.foreign_put_net ∧
    (computeOptionChanges oToday none).foreign_call_net_change =
      oToday.foreign_call_net ∧
    (computeOptionChanges oToday none).foreign_put_net_change =
      oToday.foreign_put_net := by
  simp [computeTopTradersChanges, computeOptionChanges]

/-- Helper: the header fold returns `none` iff the accumulator was `none`
and no scanned row has a matching cell. -/
theorem headerFold_eq_none_iff (rows : List (List String)) (acc : Option ℕ) :
    rows.foldl
        (fun acc row =>
          match rowHeaderIdx row with
          | some i => some i
          | none => acc)
        acc = none ↔
      acc = none ∧ ∀ row ∈ rows, rowHeaderIdx row = none := by
  induction rows generalizing acc with
  | nil => simp
  | cons r rs ih =>
    simp only [List.foldl_cons]
    rw [ih]
    cases hr : rowHeaderIdx r with
    | none => simp [hr]
    | some i => simp [hr]

/-- Helper: a row has no keyword index iff none of its cells matches. -/
theorem rowHeaderIdx_eq_none_iff (row : List String) :
    rowHeaderIdx row = none ↔ ∀ cell ∈ row, keywordMatch cell = false := by
  unfold rowHeaderIdx
  induction row with
  | nil => simp
  | cons c cs ih =>
    rw [List.findIdx?_cons]
    by_cases hc : keywordMatch c
    · simp [hc]
    · simp only [hc, if_false, Bool.false_eq_true]
      simp [Option.map_eq_none', ih, hc]

/-- Helper: the header scan returns `none` iff no header cell matches the
keywords. -/
theorem headerNetIdx_eq_none_iff (rows : List (List String)) :
    headerNetIdx rows = none ↔
      ∀ row ∈ rows, ∀ cell ∈ row, keywordMatch cell = false := by
  unfold headerNetIdx
  rw [headerFold_eq_none_iff]
  simp [rowHeaderIdx_eq_none_iff]

/-- C8: the header-keyword column lookup runs first — whenever it finds
an index, that index is used — and exactly when no cell of the scanned
header rows matches the field's keywords, the chosen column is the first
configured fixed candidate index that fits the table's width. -/
theorem c8_positional_fallback (table : List (List String)) :
    (∀ i, headerNetIdx (table.take 2) = some i → chooseNetIdx table = some i) ∧
    ((∀ row ∈ table.take 2, ∀ cell ∈ row, keywordMatch cell = false) →
      chooseNetIdx table =
        netPositionCandidates.find? (fun idx => idx < maxCols table)) := by
  constructor
  · intro i hi
    simp [chooseNetIdx, hi]
  · intro h
    have hnone : headerNetIdx (table.take 2) = none :=
      (headerNetIdx_eq_none_iff (table.take 2)).mpr h
    simp [chooseNetIdx, hnone]

/-- C8 witness: a table whose two header rows match no keyword and whose
widest row has 12 columns falls back to the fixed column index 8. -/
theorem c8_positional_fallback_witness :
    (∀ row ∈ ([["合計", "口數"], ["類別"],
        ["a", "b", "c", "d", "e", "f", "g", "h", "i", "j", "k", "l"]] :
          List (List String)).take 2, ∀ cell ∈ row, keywordMatch cell = false) ∧
    chooseNetIdx [["合計", "口數"], ["類別"],
        ["a", "b", "c", "d", "e", "f", "g", "h", "i", "j", "k", "l"]] = some 8 :=
  ⟨by decide,
    ((c8_positional_fallback _).2 (by decide)).trans (by decide)⟩

/-- C2: when the store already holds exactly one record for the trading
date, saving again replaces that record in place — afterwards the date
still identifies exactly one record, that record carries the new
document, and the store size is unchanged (no duplicate created). -/
theorem c2_snapshot_upsert (store : ReportStore) (d : String)
    (doc : ReportDocument) (h : countDate store d = 1) :
    countDate (saveMarketReport store d doc) d = 1 ∧
    findDate (saveMarketReport store d doc) d = some doc ∧
    storeSize (saveMarketReport store d doc) = storeSize store := by
  induction store with
  | nil => simp [countDate] at h
  | cons e rest ih =>
    by_cases he : e.1 = d
    · have hrest : countDate rest d = 0 := by
        simpa [countDate, he] using h
      have hnil : List.filter (fun e => decide (e.1 = d)) rest = [] := by
        rw [← List.length_eq_zero]
        simpa [countDate] using hrest
      refine ⟨?_, ?_, ?_⟩
      · simp [saveMarketReport, he, countDate, hnil]
      · simp [saveMarketReport, he, findDate]
      · simp [saveMarketReport, he, storeSize]
    · have hrest : countDate rest d = 1 := by
        simpa [countDate, he] using h
      obtain ⟨a, b, c⟩ := ih hrest
      refine ⟨?_, ?_, ?_⟩
      · simpa [saveMarketReport, he, countDate] using a
      · simpa [saveMarketReport, he, findDate] using b
      · simpa [saveMarketReport, he, storeSize] using c

/-- C2 witness: a store holding one record for 20250411 keeps exactly
one record for that date after re-saving, now with the new document. -/
theorem c2_snapshot_upsert_witness :
    countDate [("20250411", ⟨1, 2, 3⟩)] "20250411" = 1 ∧
    (countDate (saveMarketReport [("20250411", ⟨1, 2, 3⟩)] "20250411" ⟨4, 5, 6⟩)
        "20250411" = 1 ∧
      findDate (saveMarketReport [("20250411", ⟨1, 2, 3⟩)] "20250411" ⟨4, 5, 6⟩)
        "20250411" = some ⟨4, 5, 6⟩ ∧
      storeSize (saveMarketReport [("20250411", ⟨1, 2, 3⟩)] "20250411" ⟨4, 5, 6⟩) =
        storeSize [("20250411", ⟨1, 2, 3⟩)]) :=
  ⟨by decide, c2_snapshot_upsert _ _ _ (by decide)⟩

/-- C6 counterexample: in src/crawler/pc_ratio.py, a document whose TX
row is found but whose close cell does not parse (text `-`) produces
close = 0 yet bias = 4.77, not 0, because the spot close is estimated as
close - 4.77 and the bias is computed unconditionally. -/
theorem c6_counterexample :
    pcBias (pcGetTxFutures
        [[], [["TX", "202510", "x", "y", "z", "-", "▲1", "▲1%"]]]) = 477/100 ∧
    (pcGetTxFutures
        [[], [["TX", "202510", "x", "y", "z", "-", "▲1", "▲1%"]]]).close = 0 ∧
    (477/100 : ℚ) ≠ 0 := by
  refine ⟨?_, ?_, by norm_num⟩ <;>
    · simp +decide [pcGetTxFutures, pcFindTxRow, pcBias, pcDefaultTx, safeFloatL,
        parseFloatQ, parseUnsignedQ, digitsVal, trimL]
      try norm_num

/-- C6 (amended): in src/crawler/futures.py the bias is the futures
close minus the spot close when both are positive and 0 otherwise (as
claimed); in src/crawler/pc_ratio.py the bias is computed
unconditionally against a spot close estimated as close - 4.77, so it is
4.77 whenever the TX row was read (even when the close failed to parse)
and 0 only on the all-zero failure paths. -/
theorem c6_basis_amended :
    (∀ close taiex_close : ℚ, computeBias close taiex_close =
      if 0 < close ∧ 0 < taiex_close then close - taiex_close else 0) ∧
    (∀ tables, pcBias (pcGetTxFutures tables) = 477/100 ∨
      pcBias (pcGetTxFutures tables) = 0) := by
  refine ⟨fun c t => rfl, ?_⟩
  intro tables
  match tables with
  | [] => right; simp [pcGetTxFutures, pcBias, pcDefaultTx]
  | [t] => right; simp [pcGetTxFutures, pcBias, pcDefaultTx]
  | t0 :: t1 :: rest =>
    cases hf : pcFindTxRow t1 with
    | none => right; simp [pcGetTxFutures, hf, pcBias, pcDefaultTx]
    | some cells =>
      rcases cells with _ | ⟨c0, _ | ⟨c1, _ | ⟨c2, _ | ⟨c3, _ | ⟨c4, _ | ⟨c5,
        _ | ⟨c6, _ | ⟨c7, rest2⟩⟩⟩⟩⟩⟩⟩⟩ <;>
        first
        | (right; simp [pcGetTxFutures, hf, pcBias, pcDefaultTx]; done)
        | (left; simp [pcGetTxFutures, hf, pcBias]; try ring; done)

/-- Helper: when the main page holds at least one table, a `None` result
can only come from the missing index row. -/
theorem getTaiexData_cons_none {t0 : List (List String)}
    {rest : List (List (List String))} {vol : Fetch}
    (h : getTaiexData (Fetch.ok (t0 :: rest)) vol = none) :
    findTaiexRow t0 = none := by
  cases hf : findTaiexRow t0 with
  | none => rfl
  | some cells =>
    exfalso
    rcases cells with _ | ⟨a, _ | ⟨b, _ | ⟨c, _ | ⟨d, _ | ⟨e, r5⟩⟩⟩⟩⟩ <;>
      first
      | (simp [getTaiexData, hf] at h; done)
      | (cases vol with
         | err => simp [getTaiexData, hf] at h
         | ok vtables =>
           cases hv : parseVolume vtables with
           | none => simp [getTaiexData, hf, hv] at h
           | some v => simp [getTaiexData, hf, hv] at h)

/-- C1 (amended): `get_taiex_data` is total — a raised request error
resolves to the all-zero default record — but it does not always return
a record: it returns `None` exactly when the main page was fetched and
parsed yet holds no table, or its first table has no weighted-index row;
in every other case some record is returned. -/
theorem c1_taiex_totality_amended (main vol : Fetch) :
    getTaiexData Fetch.err vol = some defaultTaiexRecord ∧
    (getTaiexData main vol = none ↔
      ∃ tables, main = Fetch.ok tables ∧
        (tables = [] ∨
          ∃ t0 rest, tables = t0 :: rest ∧ findTaiexRow t0 = none)) := by
  refine ⟨rfl, ?_⟩
  constructor
  · intro h
    cases main with
    | err => simp [getTaiexData] at h
    | ok tables =>
      refine ⟨tables, rfl, ?_⟩
      cases tables with
      | nil => exact Or.inl rfl
      | cons t0 rest => exact Or.inr ⟨t0, rest, rfl, getTaiexData_cons_none h⟩
  · rintro ⟨tables, rfl, (rfl | ⟨t0, rest, rfl, hrow⟩)⟩
    · rfl
    · simp [getTaiexData, hrow]

/-- C1 counterexample: a successfully fetched main page with no table
makes `get_taiex_data` return `None`, not a default-filled record. -/
theorem c1_counterexample :
    getTaiexData (Fetch.ok []) (Fetch.ok []) = none :=
  rfl
